import Mathlib

/-!
Verification of the touch-gesture engine of tangram-ng.

The model is a shallow embedding of `TouchHandler` (src/core/src/util/touchHandler
rewrite found in the repository; the version with DPI-aware thresholds, the
`m_doubleTapStartPos` zoom anchor, panning modes and the dual-pointer guess
heuristic).  Scalars are `ℚ`; the C++ `float` arithmetic is modelled exactly
(no rounding).  Two systematic translations are used:

* comparisons of a Euclidean length `sqrt(dx*dx + dy*dy)` against a bound `t`
  are written in exact square form, using that for every real `x ≥ 0`:
  `sqrt x < t ↔ 0 < t ∧ x < t * t` and `sqrt x > t ↔ t < 0 ∨ x > t * t`;
* `duration_cast<milliseconds>` truncates toward zero, and for an integer
  bound `k > 0` truncation is transparent: `trunc x < k ↔ x < k` and
  `trunc x ≥ k ↔ x ≥ k`; durations are therefore compared directly in ℚ
  milliseconds.

Square roots, `atan2`, `log2`, `glm::rotate` and `π` whose *values* (not just
comparisons) flow into the computation are kept abstract in a `RealFns`
record, since they are irrational on most inputs.
-/

namespace Tangram

/-- Two-component vector over ℚ: models both `ScreenPos` and `glm::vec2`. -/
structure Vec2 where
  x : ℚ
  y : ℚ
deriving DecidableEq

def Vec2.add (a b : Vec2) : Vec2 := ⟨a.x + b.x, a.y + b.y⟩

def Vec2.sub (a b : Vec2) : Vec2 := ⟨a.x - b.x, a.y - b.y⟩

/-- Scalar multiplication, `c * v` on `glm::vec2`. -/
def Vec2.smul (c : ℚ) (a : Vec2) : Vec2 := ⟨c * a.x, c * a.y⟩

def Vec2.zero : Vec2 := ⟨0, 0⟩

instance : Add Vec2 := ⟨Vec2.add⟩

instance : Sub Vec2 := ⟨Vec2.sub⟩

/-- Squared Euclidean length; `glm::length v = sqrt v.lenSq`. -/
def Vec2.lenSq (a : Vec2) : ℚ := a.x * a.x + a.y * a.y

/-- `TouchAction` (util/touchHandler.h). -/
inductive TouchAction where
  | pointer1Down
  | pointer2Down
  | move
  | cancel
  | pointer1Up
  | pointer2Up
deriving DecidableEq

/-- `GestureMode` (util/touchHandler.h). -/
inductive GestureMode where
  | singlePointerClickGuess
  | dualPointerClickGuess
  | singlePointerPan
  | singlePointerZoom
  | dualPointerGuess
  | dualPointerTilt
  | dualPointerRotate
  | dualPointerScale
  | dualPointerFree
deriving DecidableEq

/-- `PanningMode` (util/touchHandler.h). -/
inductive PanningMode where
  | free
  | sticky
  | stickyFinal
deriving DecidableEq

/-- A click handler invocation (`handleSingleTap` / `handleLongPress` /
`handleDoubleTap` / `handleDualTap`): the externally observable click
notifications and their default behaviors. -/
inductive TouchEvent where
  | singleTap (pos : Vec2)
  | longPress (pos : Vec2)
  | doubleTap (pos : Vec2)
  | dualTap (pos1 pos2 : Vec2)
deriving DecidableEq

/-- Abstract real-valued primitives used by the handler: `std::sqrt`,
`std::atan2`, `std::log2`, `glm::rotate` and `M_PI`.  Their outputs are
irrational in general, so they are model parameters; every theorem below
holds for an arbitrary interpretation. -/
structure RealFns where
  sqrt : ℚ → ℚ
  atan2 : ℚ → ℚ → ℚ
  log2 : ℚ → ℚ
  rotateVec : Vec2 → ℚ → Vec2
  pi : ℚ

/-- Modelled from the spec: the View interface (§6 of the spec); the view
implementation itself is not among the provided sources.  The view holds an
absolute ground-plane position `pos`, a zoom level and orientation angles;
`screenToGroundPlane` returns ground-plane coordinates relative to `pos`
(depending on zoom/pitch/yaw but not on `pos` itself), so `translate` shifts
the absolute ground point under every screen position by the same amount —
this is the translation-equivariance the spec relies on for its screen-fixed
anchor properties.  `pixelsPerMeter`, `pixelScale`, `width`, `height` and
`maxPitch` are accessors with no specified dependence on the rest and are
held as plain fields. -/
structure View where
  pos : Vec2
  zoomLevel : ℚ
  yawAngle : ℚ
  pitchAngle : ℚ
  maxPitch : ℚ
  width : ℚ
  height : ℚ
  pixelsPerMeter : ℚ
  pixelScale : ℚ
  elevAt : ℚ → ℚ → ℚ → Vec2 → ℚ
  groundRel : ℚ → ℚ → ℚ → Vec2 → ℚ → Vec2

/-- `View::translate(dx, dy)`. -/
def View.translate (v : View) (d : Vec2) : View := { v with pos := v.pos + d }

/-- `View::zoom(Δlevels)` (relative zoom). -/
def View.zoomBy (v : View) (dz : ℚ) : View := { v with zoomLevel := v.zoomLevel + dz }

/-- `View::yaw(rad)` (relative yaw). -/
def View.yawBy (v : View) (a : ℚ) : View := { v with yawAngle := v.yawAngle + a }

/-- `View::pitch(rad)` (relative pitch). -/
def View.pitchBy (v : View) (a : ℚ) : View := { v with pitchAngle := v.pitchAngle + a }

/-- The elevation output parameter of `View::screenPositionToLngLat(x, y, &elev)`. -/
def View.screenPositionElev (v : View) (p : Vec2) : ℚ :=
  v.elevAt v.zoomLevel v.pitchAngle v.yawAngle p

/-- `View::screenToGroundPlane(x, y, elev)`: ground-plane coordinates of the
point under screen position `p`, relative to the view position. -/
def View.screenToGroundPlane (v : View) (p : Vec2) (elev : ℚ) : Vec2 :=
  v.groundRel v.zoomLevel v.pitchAngle v.yawAngle p elev

/-- Absolute ground-plane point under screen position `p` (at elevation `elev`). -/
def View.groundPointAt (v : View) (p : Vec2) (elev : ℚ) : Vec2 :=
  v.pos + v.screenToGroundPlane p elev

def dampingPan : ℚ := 4

def dampingZoom : ℚ := 6

def thresholdStartPan : ℚ := 350

def thresholdStopPan : ℚ := 24

def thresholdStartZoom : ℚ := 1

def thresholdStopZoom : ℚ := 3 / 10

def maxPitchForPanLimiting : ℚ := 75

def singlePointerZoomSensitivity : ℚ := 5 / 1000

def rotationScalingFactorThresholdSticky : ℚ := 3 / 10

def dualStopHoldDuration : ℚ := 500

def doubleTapTimeout : ℚ := 300

def longPressTimeout : ℚ := 500

def tapMovementThresholdInches : ℚ := 1 / 10

def guessMaxDeltaYInches : ℚ := 1

def guessMinSwipeLengthSameInches : ℚ := 1 / 10

def guessMinSwipeLengthOppositeInches : ℚ := 75 / 1000

def defaultDpi : ℚ := 160

/-- The state of `TouchHandler` (members of util/touchHandler.h).  Time
points are ℚ milliseconds on a monotonic clock.  The listeners are not state
here: a listener's answer for the (at most one) interaction-listener
consultation an action can make is supplied with the input, and click-handler
invocations are returned as `TouchEvent`s. -/
structure TouchHandler where
  view : View
  dpi : ℚ
  panningMode : PanningMode
  zoomEnabled : Bool
  panEnabled : Bool
  doubleTapEnabled : Bool
  doubleTapDragEnabled : Bool
  tiltEnabled : Bool
  rotateEnabled : Bool
  gestureMode : GestureMode
  pointersDown : ℤ
  noDualPointerYet : Bool
  interactionConsumed : Bool
  prevScreenPos1 : Vec2
  prevScreenPos2 : Vec2
  firstTapPos : Vec2
  doubleTapStartPos : Vec2
  swipe1 : Vec2
  swipe2 : Vec2
  dualPointerReleaseTime : ℚ
  firstTapTime : ℚ
  pointer1DownTime : ℚ
  singlePointerZoomStartZoom : ℚ
  velocityPan : Vec2
  velocityZoom : ℚ

/-- `TouchHandler::TouchHandler(View&, Map*)`: the constructor's initializer
list; `t0` is the construction-time clock reading used to initialize the
three `steady_clock::now()` members.  Default-constructed screen positions
are `(0, 0)`. -/
def TouchHandler.init (v : View) (t0 : ℚ) : TouchHandler where
  view := v
  dpi := defaultDpi
  panningMode := .free
  zoomEnabled := true
  panEnabled := true
  doubleTapEnabled := true
  doubleTapDragEnabled := true
  tiltEnabled := true
  rotateEnabled := true
  gestureMode := .singlePointerClickGuess
  pointersDown := 0
  noDualPointerYet := true
  interactionConsumed := false
  prevScreenPos1 := Vec2.zero
  prevScreenPos2 := Vec2.zero
  firstTapPos := Vec2.zero
  doubleTapStartPos := Vec2.zero
  swipe1 := Vec2.zero
  swipe2 := Vec2.zero
  dualPointerReleaseTime := t0
  firstTapTime := t0
  pointer1DownTime := t0
  singlePointerZoomStartZoom := 0
  velocityPan := Vec2.zero
  velocityZoom := 0

/-- `TouchHandler::setVelocity(zoom, translate)`. -/
def TouchHandler.setVelocity (s : TouchHandler) (z : ℚ) (t : Vec2) : TouchHandler :=
  { s with velocityPan := t, velocityZoom := z }

/-- `TouchHandler::cancel()` (the public hard-reset entry point; distinct
from the `CANCEL` case inside `onTouchEvent`). -/
def TouchHandler.cancelMethod (s : TouchHandler) : TouchHandler :=
  let s1 := s.setVelocity 0 Vec2.zero
  { s1 with gestureMode := .singlePointerClickGuess,
            pointersDown := 0,
            interactionConsumed := false }

/-- The `isFlinging` condition of `TouchHandler::update`:
`glm::length(velocityPanPixels) > THRESHOLD_STOP_PAN || std::abs(m_velocityZoom) > THRESHOLD_STOP_ZOOM`
(the length comparison in exact square form; `24 ≥ 0`). -/
def TouchHandler.flinging (s : TouchHandler) : Prop :=
  (Vec2.smul (s.view.pixelsPerMeter / s.view.pixelScale) s.velocityPan).lenSq >
      thresholdStopPan * thresholdStopPan ∨
    |s.velocityZoom| > thresholdStopZoom

instance (s : TouchHandler) : Decidable s.flinging := by
  unfold TouchHandler.flinging; infer_instance

/-- `TouchHandler::update(dt)`: the kinetic tick.  Note the source damps each
velocity first and then moves the view with the already-damped value. -/
def TouchHandler.update (s : TouchHandler) (dt : ℚ) : TouchHandler × Bool :=
  if s.flinging then
    let vp := s.velocityPan - Vec2.smul (min (dt * dampingPan) 1) s.velocityPan
    let v1 := s.view.translate ⟨dt * vp.x, dt * vp.y⟩
    let vz := s.velocityZoom - min (dt * dampingZoom) 1 * s.velocityZoom
    let v2 := v1.zoomBy (vz * dt)
    ({ s with velocityPan := vp, velocityZoom := vz, view := v2 }, true)
  else (s, false)

/-- Iterated `update` with a fixed `dt` and no intervening touch input. -/
def TouchHandler.updateIter (s : TouchHandler) (dt : ℚ) : ℕ → TouchHandler
  | 0 => s
  | n + 1 => ((s.update dt).1).updateIter dt n

/-- `TouchHandler::getTranslation(startX, startY, endX, endY)`. -/
def TouchHandler.getTranslation (G : RealFns) (s : TouchHandler) (startP endP : Vec2) : Vec2 :=
  let elev := s.view.screenPositionElev startP
  let startG := s.view.screenToGroundPlane startP elev
  let endG := s.view.screenToGroundPlane endP elev
  let dr := startG - endG
  if s.view.pitchAngle > maxPitchForPanLimiting * G.pi / 180 then
    let dpx := G.sqrt (startP - endP).lenSq / s.view.pixelsPerMeter
    let dd := G.sqrt dr.lenSq
    if dd > dpx then Vec2.smul (dpx / dd) dr else dr
  else dr

/-- `TouchHandler::singlePointerPan(screenPos, viewState)`. -/
def TouchHandler.singlePointerPan (G : RealFns) (s : TouchHandler) (pos : Vec2) : TouchHandler :=
  { s with view := s.view.translate (s.getTranslation G s.prevScreenPos1 pos),
           prevScreenPos1 := pos }

/-- `TouchHandler::startSinglePointerZoom(screenPos)`. -/
def TouchHandler.startSinglePointerZoom (s : TouchHandler) (pos : Vec2) : TouchHandler :=
  { s with singlePointerZoomStartZoom := s.view.zoomLevel,
           doubleTapStartPos := pos,
           prevScreenPos1 := pos,
           gestureMode := .singlePointerZoom }

/-- `TouchHandler::singlePointerZoom(screenPos, viewState)`: the double-tap
drag zoom, anchored at `m_doubleTapStartPos`. -/
def TouchHandler.singlePointerZoom (s : TouchHandler) (pos : Vec2) : TouchHandler :=
  if !s.doubleTapDragEnabled then s
  else
    let deltaY := pos.y - s.prevScreenPos1.y
    let zoomDelta := deltaY * singlePointerZoomSensitivity
    let elev := s.view.screenPositionElev s.doubleTapStartPos
    let startG := s.view.screenToGroundPlane s.doubleTapStartPos elev
    let v1 := s.view.zoomBy zoomDelta
    let endG := v1.screenToGroundPlane s.doubleTapStartPos elev
    let v2 := v1.translate (startG - endG)
    { s with view := v2, prevScreenPos1 := pos }

/-- `TouchHandler::startDualPointer(screenPos1, screenPos2)`. -/
def TouchHandler.startDualPointer (s : TouchHandler) (p1 p2 : Vec2) : TouchHandler :=
  { s with prevScreenPos1 := p1, prevScreenPos2 := p2,
           swipe1 := Vec2.zero, swipe2 := Vec2.zero,
           gestureMode := .dualPointerGuess }

/-- `TouchHandler::dualPointerGuess(screenPos1, screenPos2, viewState)`.
Swipe-length comparisons are in exact square form (both bounds are
positive constants, and `length > 0 ↔ lenSq > 0`). -/
def TouchHandler.dualPointerGuess (s : TouchHandler) (p1 p2 : Vec2) : TouchHandler :=
  let enabledGestureCount : ℤ :=
    (if s.tiltEnabled then 1 else 0) + (if s.rotateEnabled || s.zoomEnabled then 1 else 0)
  let targetMode : GestureMode :=
    if s.rotateEnabled || s.zoomEnabled then .dualPointerFree
    else if s.tiltEnabled then .dualPointerTilt
    else .dualPointerFree
  if enabledGestureCount = 1 then
    { s with gestureMode := targetMode, prevScreenPos1 := p1, prevScreenPos2 := p2 }
  else if enabledGestureCount = 0 then
    { s with gestureMode := .singlePointerClickGuess }
  else
    let deltaY := |p1.y - p2.y| / s.dpi
    let s1 :=
      if deltaY > guessMaxDeltaYInches then
        { s with gestureMode := .dualPointerFree }
      else
        let prevSwipe1LenSq := s.swipe1.lenSq
        let prevSwipe2LenSq := s.swipe2.lenSq
        let sw1 := s.swipe1 + Vec2.smul (1 / s.dpi) (p1 - s.prevScreenPos1)
        let sw2 := s.swipe2 + Vec2.smul (1 / s.dpi) (p2 - s.prevScreenPos2)
        let s2 := { s with swipe1 := sw1, swipe2 := sw2 }
        if ((sw1.lenSq > guessMinSwipeLengthOppositeInches * guessMinSwipeLengthOppositeInches ∧
              prevSwipe1LenSq > 0) ∨
            (sw2.lenSq > guessMinSwipeLengthOppositeInches * guessMinSwipeLengthOppositeInches ∧
              prevSwipe2LenSq > 0)) ∧
            sw1.y * sw2.y ≤ 0 then
          if s2.rotateEnabled || s2.zoomEnabled then
            if s2.panningMode = .sticky ∨ s2.panningMode = .stickyFinal then
              { s2 with gestureMode := .dualPointerRotate }
            else
              { s2 with gestureMode := .dualPointerFree }
          else s2
        else if (sw1.lenSq > guessMinSwipeLengthSameInches * guessMinSwipeLengthSameInches ∨
                 sw2.lenSq > guessMinSwipeLengthSameInches * guessMinSwipeLengthSameInches) ∧
                sw1.y * sw2.y > 0 then
          if s2.tiltEnabled then { s2 with gestureMode := .dualPointerTilt } else s2
        else s2
    { s1 with prevScreenPos1 := p1, prevScreenPos2 := p2 }

/-- `TouchHandler::dualPointerPan(screenPos1, screenPos2, rotate, scale, viewState)`. -/
def TouchHandler.dualPointerPan (G : RealFns) (s : TouchHandler) (p1 p2 : Vec2)
    (rotate scale : Bool) : TouchHandler :=
  let prevCenter : Vec2 := ⟨(s.prevScreenPos1.x + s.prevScreenPos2.x) * (1 / 2),
                            (s.prevScreenPos1.y + s.prevScreenPos2.y) * (1 / 2)⟩
  let currCenter : Vec2 := ⟨(p1.x + p2.x) * (1 / 2), (p1.y + p2.y) * (1 / 2)⟩
  let sA :=
    if s.panEnabled then
      { s with view := s.view.translate (s.getTranslation G prevCenter currCenter) }
    else s
  let sB :=
    if scale && sA.zoomEnabled then
      let prevDist := G.sqrt (sA.prevScreenPos2 - sA.prevScreenPos1).lenSq
      let currDist := G.sqrt (p2 - p1).lenSq
      if prevDist > 0 ∧ currDist > 0 then
        let scaleFactor := currDist / prevDist
        let elev := sA.view.screenPositionElev currCenter
        let startG := sA.view.screenToGroundPlane currCenter elev
        let v1 := sA.view.zoomBy (G.log2 scaleFactor)
        let endG := v1.screenToGroundPlane currCenter elev
        let v2 := if sA.panEnabled then v1.translate (startG - endG) else v1
        { sA with view := v2 }
      else sA
    else sA
  let sC :=
    if rotate && sB.rotateEnabled then
      let prevAngle := G.atan2 (sB.prevScreenPos2.y - sB.prevScreenPos1.y)
                               (sB.prevScreenPos2.x - sB.prevScreenPos1.x)
      let currAngle := G.atan2 (p2.y - p1.y) (p2.x - p1.x)
      let rot := currAngle - prevAngle
      let elev := sB.view.screenPositionElev currCenter
      let offset := sB.view.screenToGroundPlane currCenter elev
      let translationRot := offset - G.rotateVec offset rot
      let v1 := if sB.panEnabled then sB.view.translate translationRot else sB.view
      let v2 := v1.yawBy rot
      { sB with view := v2 }
    else sB
  { sC with prevScreenPos1 := p1, prevScreenPos2 := p2 }

/-- `TouchHandler::dualPointerTilt(screenPos1, viewState)`
(`glm::clamp x lo hi = min (max x lo) hi`). -/
def TouchHandler.dualPointerTilt (G : RealFns) (s : TouchHandler) (p1 : Vec2) : TouchHandler :=
  if !s.tiltEnabled then { s with prevScreenPos1 := p1 }
  else
    let deltaY := p1.y - s.prevScreenPos1.y
    let angle := -G.pi * deltaY / s.view.height
    let maxpitch := min (75 * (G.pi / 180)) s.view.maxPitch
    let pitch0 := min (max s.view.pitchAngle 0) maxpitch
    let pitch1 := min (max (s.view.pitchAngle + angle) 0) maxpitch
    { s with view := s.view.pitchBy (pitch1 - pitch0), prevScreenPos1 := p1 }

/-- `TouchHandler::calculateRotatingScalingFactor(screenPos1, screenPos2)`. -/
def TouchHandler.calculateRotatingScalingFactor (G : RealFns) (s : TouchHandler)
    (p1 p2 : Vec2) : ℚ :=
  let prevDist := G.sqrt (s.prevScreenPos2 - s.prevScreenPos1).lenSq
  let currDist := G.sqrt (p2 - p1).lenSq
  if prevDist < 1 ∨ currDist < 1 then 0
  else
    let prevAngle := G.atan2 (s.prevScreenPos2.y - s.prevScreenPos1.y)
                             (s.prevScreenPos2.x - s.prevScreenPos1.x)
    let currAngle := G.atan2 (p2.y - p1.y) (p2.x - p1.x)
    let angleChange := |currAngle - prevAngle|
    let scaleChange := |currDist - prevDist| / prevDist
    if angleChange > scaleChange * 2 then angleChange
    else if scaleChange > angleChange * 2 then -scaleChange
    else 0

/-- One call to `TouchHandler::onTouchEvent`: the action, the two screen
positions, the clock reading `now`, and the boolean the interaction listener
would return if this action consults it (`false` stands for both an absent
listener and a listener that declines — the source assigns
`m_interactionConsumed` only when a listener is present, and on every such
path the flag is `false` beforehand, so the two coincide). -/
structure TouchInput where
  action : TouchAction
  pos1 : Vec2
  pos2 : Vec2
  now : ℚ
  interactionResult : Bool

/-- The `POINTER_1_DOWN` case of `onTouchEvent`. -/
def TouchHandler.p1DownCase (s : TouchHandler) (pos1 : Vec2) (now : ℚ)
    (ir : Bool) : TouchHandler :=
  let tapThreshold := tapMovementThresholdInches * s.dpi
  let s1 := { s with pointer1DownTime := now, noDualPointerYet := true,
                     interactionConsumed := false }
  let s2 := s1.setVelocity 0 Vec2.zero
  let s3 := { s2 with prevScreenPos1 := pos1 }
  let timeSinceFirstTap := now - s3.firstTapTime
  let distSqFromFirstTap := (pos1 - s3.firstTapPos).lenSq
  if timeSinceFirstTap < doubleTapTimeout ∧
      (0 < tapThreshold ∧ distSqFromFirstTap < tapThreshold * tapThreshold) ∧
      s3.gestureMode = .singlePointerClickGuess then
    if !s3.doubleTapDragEnabled then
      { s3 with gestureMode := .singlePointerClickGuess }
    else
      let s4 := { s3 with interactionConsumed := ir }
      if !s4.interactionConsumed then s4.startSinglePointerZoom pos1
      else { s4 with gestureMode := .singlePointerClickGuess }
  else
    { s3 with gestureMode := .singlePointerClickGuess,
              firstTapTime := now, firstTapPos := pos1 }

/-- The `POINTER_2_DOWN` case of `onTouchEvent`. -/
def TouchHandler.p2DownCase (s : TouchHandler) (p1 p2 : Vec2) : TouchHandler :=
  let s1 := { s with noDualPointerYet := false }
  match s1.gestureMode with
  | .singlePointerClickGuess => { s1 with gestureMode := .dualPointerClickGuess }
  | .singlePointerPan => s1.startDualPointer p1 p2
  | .singlePointerZoom => s1.startDualPointer p1 p2
  | _ => s1

/-- The `MOVE` case of `onTouchEvent`. -/
def TouchHandler.moveCase (G : RealFns) (s : TouchHandler) (p1 p2 : Vec2) (now : ℚ)
    (ir : Bool) : TouchHandler :=
  if s.interactionConsumed then s
  else
    match s.gestureMode with
    | .singlePointerClickGuess =>
        let distSq := (p1 - s.prevScreenPos1).lenSq
        let tapThreshold := tapMovementThresholdInches * s.dpi
        if tapThreshold < 0 ∨ distSq > tapThreshold * tapThreshold then
          if !s.panEnabled then s
          else
            let s1 := { s with interactionConsumed := ir }
            if !s1.interactionConsumed then
              { s1 with gestureMode := .singlePointerPan, prevScreenPos1 := p1 }
            else s1
        else s
    | .dualPointerClickGuess =>
        let s1 := { s with interactionConsumed := ir }
        if !s1.interactionConsumed then
          { s1 with gestureMode := .dualPointerGuess,
                    prevScreenPos1 := p1, prevScreenPos2 := p2 }
        else s1
    | .singlePointerPan =>
        if now - s.dualPointerReleaseTime ≥ dualStopHoldDuration then
          s.singlePointerPan G p1
        else s
    | .singlePointerZoom => s.singlePointerZoom p1
    | .dualPointerGuess => s.dualPointerGuess p1 p2
    | .dualPointerTilt => s.dualPointerTilt G p1
    | .dualPointerRotate =>
        let s1 :=
          if s.panningMode = .sticky then
            let factor := s.calculateRotatingScalingFactor G p1 p2
            if factor > rotationScalingFactorThresholdSticky then
              { s with gestureMode := .dualPointerRotate }
            else if factor < -rotationScalingFactorThresholdSticky then
              { s with gestureMode := .dualPointerScale }
            else s
          else s
        s1.dualPointerPan G p1 p2 (decide (s1.gestureMode = .dualPointerRotate))
          (decide (s1.gestureMode = .dualPointerScale))
    | .dualPointerScale =>
        let s1 :=
          if s.panningMode = .sticky then
            let factor := s.calculateRotatingScalingFactor G p1 p2
            if factor > rotationScalingFactorThresholdSticky then
              { s with gestureMode := .dualPointerRotate }
            else if factor < -rotationScalingFactorThresholdSticky then
              { s with gestureMode := .dualPointerScale }
            else s
          else s
        s1.dualPointerPan G p1 p2 (decide (s1.gestureMode = .dualPointerRotate))
          (decide (s1.gestureMode = .dualPointerScale))
    | .dualPointerFree => s.dualPointerPan G p1 p2 true true

/-- The `POINTER_1_UP` case of `onTouchEvent`, returning the click-handler
invocations it makes. -/
def TouchHandler.p1UpCase (s : TouchHandler) (p1 p2 : Vec2) (now : ℚ) :
    TouchHandler × List TouchEvent :=
  let tapThreshold := tapMovementThresholdInches * s.dpi
  let tapDuration := now - s.pointer1DownTime
  let moveDistSq := (p1 - s.prevScreenPos1).lenSq
  match s.gestureMode with
  | .singlePointerClickGuess =>
      let events :=
        if 0 < tapThreshold ∧ moveDistSq < tapThreshold * tapThreshold then
          if tapDuration ≥ longPressTimeout then [TouchEvent.longPress p1]
          else if tapDuration < doubleTapTimeout then [TouchEvent.singleTap p1]
          else []
        else []
      ({ s with gestureMode := .singlePointerClickGuess }, events)
  | .dualPointerClickGuess =>
      ({ s with gestureMode := .singlePointerClickGuess }, [])
  | .singlePointerPan =>
      let s1 := { s with gestureMode := .singlePointerClickGuess,
                         interactionConsumed := false }
      (if s1.noDualPointerYet then s1.setVelocity 0 s1.velocityPan else s1, [])
  | .singlePointerZoom =>
      let events :=
        if tapDuration < doubleTapTimeout ∧
            (0 < tapThreshold ∧ moveDistSq < tapThreshold * tapThreshold) then
          [TouchEvent.doubleTap p1]
        else []
      let s1 := { s with gestureMode := .singlePointerClickGuess,
                         interactionConsumed := false }
      (if s1.noDualPointerYet then s1.setVelocity s1.velocityZoom Vec2.zero else s1, events)
  | _ =>
      ({ s with dualPointerReleaseTime := now, prevScreenPos1 := p2,
                gestureMode := .singlePointerPan }, [])

/-- The `POINTER_2_UP` case of `onTouchEvent`. -/
def TouchHandler.p2UpCase (s : TouchHandler) (p1 p2 : Vec2) (now : ℚ) :
    TouchHandler × List TouchEvent :=
  match s.gestureMode with
  | .dualPointerClickGuess =>
      let tapDuration := now - s.pointer1DownTime
      let events :=
        if tapDuration < doubleTapTimeout then [TouchEvent.dualTap s.prevScreenPos1 p2]
        else []
      ({ s with gestureMode := .singlePointerClickGuess }, events)
  | .dualPointerGuess =>
      ({ s with dualPointerReleaseTime := now, prevScreenPos1 := p1,
                gestureMode := .singlePointerPan }, [])
  | .dualPointerTilt =>
      ({ s with dualPointerReleaseTime := now, prevScreenPos1 := p1,
                gestureMode := .singlePointerPan }, [])
  | .dualPointerRotate =>
      ({ s with dualPointerReleaseTime := now, prevScreenPos1 := p1,
                gestureMode := .singlePointerPan }, [])
  | .dualPointerScale =>
      ({ s with dualPointerReleaseTime := now, prevScreenPos1 := p1,
                gestureMode := .singlePointerPan }, [])
  | .dualPointerFree =>
      ({ s with dualPointerReleaseTime := now, prevScreenPos1 := p1,
                gestureMode := .singlePointerPan }, [])
  | _ => (s, [])

/-- `TouchHandler::onTouchEvent(action, screenPos1, screenPos2)`: the action
switch followed by the unconditional pointer-count update
(`m_pointersDown = min(2, ·+1)` on downs, `max(0, ·−1)` on ups, `0` on cancel).
The function's C++ return value is `m_interactionConsumed` of the resulting
state. -/
def TouchHandler.onTouchEvent (G : RealFns) (s : TouchHandler) (inp : TouchInput) :
    TouchHandler × List TouchEvent :=
  let res : TouchHandler × List TouchEvent :=
    match inp.action with
    | .pointer1Down => (s.p1DownCase inp.pos1 inp.now inp.interactionResult, [])
    | .pointer2Down => (s.p2DownCase inp.pos1 inp.pos2, [])
    | .move => (s.moveCase G inp.pos1 inp.pos2 inp.now inp.interactionResult, [])
    | .cancel =>
        let sc := s.setVelocity 0 Vec2.zero
        ({ sc with pointersDown := 0, gestureMode := .singlePointerClickGuess }, [])
    | .pointer1Up => s.p1UpCase inp.pos1 inp.pos2 inp.now
    | .pointer2Up => s.p2UpCase inp.pos1 inp.pos2 inp.now
  let s1 := res.1
  let pd : ℤ :=
    match inp.action with
    | .pointer1Down => min 2 (s1.pointersDown + 1)
    | .pointer2Down => min 2 (s1.pointersDown + 1)
    | .pointer1Up => max 0 (s1.pointersDown - 1)
    | .pointer2Up => max 0 (s1.pointersDown - 1)
    | .cancel => 0
    | .move => s1.pointersDown
  ({ s1 with pointersDown := pd }, res.2)

/-- A sequence of `onTouchEvent` calls. -/
def TouchHandler.runTouch (G : RealFns) (s : TouchHandler) : List TouchInput → TouchHandler
  | [] => s
  | inp :: rest => ((s.onTouchEvent G inp).1).runTouch G rest

/-- A concrete interpretation of the abstract real-valued primitives. -/
def fns0 : RealFns :=
  { sqrt := fun q => q, atan2 := fun _ _ => 0, log2 := fun _ => 0,
    rotateVec := fun v _ => v, pi := 22 / 7 }

/-- A concrete view; its projection depends on zoom so that anchor
preservation is not vacuous. -/
def view0 : View :=
  { pos := Vec2.zero, zoomLevel := 10, yawAngle := 0, pitchAngle := 0,
    maxPitch := 2, width := 800, height := 600, pixelsPerMeter := 1,
    pixelScale := 1, elevAt := fun _ _ _ _ => 0,
    groundRel := fun z _ _ p e => ⟨z + p.x + e, z + p.y⟩ }

/-- How `m_pointersDown` actually evolves (the trailing update in
`onTouchEvent`): clamped into `[0, 2]`. -/
def clampedTally (p : ℤ) (a : TouchAction) : ℤ :=
  match a with
  | .pointer1Down => min 2 (p + 1)
  | .pointer2Down => min 2 (p + 1)
  | .pointer1Up => max 0 (p - 1)
  | .pointer2Up => max 0 (p - 1)
  | .cancel => 0
  | .move => p

/-- The spec's count: downs minus ups since the last `Cancel`, unclamped. -/
def rawTally (p : ℤ) (a : TouchAction) : ℤ :=
  match a with
  | .pointer1Down => p + 1
  | .pointer2Down => p + 1
  | .pointer1Up => p - 1
  | .pointer2Up => p - 1
  | .cancel => 0
  | .move => p

/-- The running raw count starting from `p` stays within `[0, 2]` after every
action of the list. -/
def rawInRange : ℤ → List TouchAction → Bool
  | _, [] => true
  | p, a :: rest =>
      decide (0 ≤ rawTally p a) && decide (rawTally p a ≤ 2) && rawInRange (rawTally p a) rest

/-- A well-formed input sequence: `P1Down, P2Down, P1Up`. -/
def wfInputs : List TouchInput :=
  [⟨.pointer1Down, ⟨0, 0⟩, ⟨-1, -1⟩, 1000, false⟩,
   ⟨.pointer2Down, ⟨0, 0⟩, ⟨50, 50⟩, 1100, false⟩,
   ⟨.pointer1Up, ⟨0, 0⟩, ⟨50, 50⟩, 1200, false⟩]

/-- A state with an active zoom fling (`|velocityZoom| = 1 > 0.3`). -/
def sFling : TouchHandler := { TouchHandler.init view0 0 with velocityZoom := 1 }

/-- A state mid-pan with a small residual pan velocity: `(1, 0)` m/s, i.e.
1 px/s under `view0` — far below `THRESHOLD_START_PAN = 350 px/s`. -/
def sPanArmed : TouchHandler :=
  { TouchHandler.init view0 0 with
      gestureMode := .singlePointerPan,
      velocityPan := ⟨1, 0⟩, velocityZoom := 5 }

/-- A duplicate `P1Down` without an intervening `P1Up`. -/
def dupInputs : List TouchInput :=
  [⟨.pointer1Down, ⟨0, 0⟩, ⟨-1, -1⟩, 1000, false⟩,
   ⟨.pointer1Down, ⟨0, 0⟩, ⟨-1, -1⟩, 2000, false⟩]

/-- The same with an explicit `Cancel` inserted, as the claim says the
engine should behave implicitly. -/
def dupCancelInputs : List TouchInput :=
  [⟨.pointer1Down, ⟨0, 0⟩, ⟨-1, -1⟩, 1000, false⟩,
   ⟨.cancel, ⟨-1, -1⟩, ⟨-1, -1⟩, 1500, false⟩,
   ⟨.pointer1Down, ⟨0, 0⟩, ⟨-1, -1⟩, 2000, false⟩]

/-- A state sitting in `SingleZoom` mode with anchor `(10, 20)`. -/
def sZoomOn : TouchHandler :=
  { TouchHandler.init view0 0 with
      gestureMode := .singlePointerZoom,
      doubleTapStartPos := ⟨10, 20⟩ }

/-- A state in `SingleZoom` mode with double-tap drag disabled afterwards
(via `setDoubleTapDragEnabled(false)`). -/
def sZoomOff : TouchHandler :=
  { TouchHandler.init view0 0 with
      gestureMode := .singlePointerZoom,
      doubleTapDragEnabled := false }

/-- The state invariant behind C5: whenever the consumed flag is set, the
engine sits in one of the two click-guess modes (the only places the flag is
raised leave the mode there, and it is dropped before any other mode is
entered). -/
def ConsumedInv (s : TouchHandler) : Prop :=
  s.interactionConsumed = true →
    s.gestureMode = .singlePointerClickGuess ∨ s.gestureMode = .dualPointerClickGuess

/-- Reachability from a freshly constructed handler through `onTouchEvent`
calls. -/
def Reachable (G : RealFns) (s : TouchHandler) : Prop :=
  ∃ (v : View) (t0 : ℚ) (inputs : List TouchInput),
    (TouchHandler.init v t0).runTouch G inputs = s

/-- Inputs that reach a consumed state: a `P1Down`, then a Move past the tap
threshold whose interaction listener returns `true`. -/
def consInputs : List TouchInput :=
  [⟨.pointer1Down, ⟨0, 0⟩, ⟨-1, -1⟩, 1000, false⟩,
   ⟨.move, ⟨100, 100⟩, ⟨-1, -1⟩, 1010, true⟩]

/-- The state after `consInputs`: the listener consumed the pan gesture. -/
def sCons : TouchHandler := (TouchHandler.init view0 0).runTouch fns0 consInputs

/-- A state in `DualGuess` right after `startDualPointer` (both accumulated
swipes still zero), fingers at y = 0 and y = 100. -/
def sGuess : TouchHandler :=
  { TouchHandler.init view0 0 with
      gestureMode := .dualPointerGuess,
      prevScreenPos2 := ⟨0, 100⟩ }

/-- Like `sGuess` but pointer 1 already accumulated a small swipe
`(0, 0.01)` on an earlier Move. -/
def sGuessW : TouchHandler :=
  { TouchHandler.init view0 0 with
      gestureMode := .dualPointerGuess,
      prevScreenPos2 := ⟨0, 100⟩,
      swipe1 := ⟨0, 1 / 100⟩ }

/-- A Move where pointer 1 swipes 20 px down while pointer 2 stays put. -/
def mvGuess : TouchInput := ⟨.move, ⟨0, 20⟩, ⟨0, 100⟩, 2000, false⟩

/-! ## Theorems -/

@[simp] theorem Vec2.add_def (a b : Vec2) : a + b = ⟨a.x + b.x, a.y + b.y⟩ := rfl

@[simp] theorem Vec2.sub_def (a b : Vec2) : a - b = ⟨a.x - b.x, a.y - b.y⟩ := rfl

@[simp] theorem setVelocity_pointersDown (s : TouchHandler) (z : ℚ) (t : Vec2) :
    (s.setVelocity z t).pointersDown = s.pointersDown := rfl

@[simp] theorem startSinglePointerZoom_pointersDown (s : TouchHandler) (p : Vec2) :
    (s.startSinglePointerZoom p).pointersDown = s.pointersDown := rfl

@[simp] theorem startDualPointer_pointersDown (s : TouchHandler) (p1 p2 : Vec2) :
    (s.startDualPointer p1 p2).pointersDown = s.pointersDown := rfl

@[simp] theorem singlePointerPan_pointersDown (G : RealFns) (s : TouchHandler) (p : Vec2) :
    (s.singlePointerPan G p).pointersDown = s.pointersDown := rfl

@[simp] theorem singlePointerZoom_pointersDown (s : TouchHandler) (p : Vec2) :
    (s.singlePointerZoom p).pointersDown = s.pointersDown := by
  simp only [TouchHandler.singlePointerZoom]
  split <;> rfl

@[simp] theorem dualPointerGuess_pointersDown (s : TouchHandler) (p1 p2 : Vec2) :
    (s.dualPointerGuess p1 p2).pointersDown = s.pointersDown := by
  simp only [TouchHandler.dualPointerGuess]
  repeat' split
  all_goals rfl

@[simp] theorem dualPointerPan_pointersDown (G : RealFns) (s : TouchHandler) (p1 p2 : Vec2)
    (rotate scale : Bool) :
    (s.dualPointerPan G p1 p2 rotate scale).pointersDown = s.pointersDown := by
  simp only [TouchHandler.dualPointerPan]
  repeat' split
  all_goals rfl

@[simp] theorem dualPointerTilt_pointersDown (G : RealFns) (s : TouchHandler) (p1 : Vec2) :
    (s.dualPointerTilt G p1).pointersDown = s.pointersDown := by
  simp only [TouchHandler.dualPointerTilt]
  split <;> rfl

@[simp] theorem p1DownCase_pointersDown (s : TouchHandler) (p : Vec2) (n : ℚ) (ir : Bool) :
    (s.p1DownCase p n ir).pointersDown = s.pointersDown := by
  simp only [TouchHandler.p1DownCase]
  repeat' split
  all_goals rfl

@[simp] theorem p2DownCase_pointersDown (s : TouchHandler) (p1 p2 : Vec2) :
    (s.p2DownCase p1 p2).pointersDown = s.pointersDown := by
  simp only [TouchHandler.p2DownCase]
  split <;> rfl

@[simp] theorem moveCase_pointersDown (G : RealFns) (s : TouchHandler) (p1 p2 : Vec2)
    (now : ℚ) (ir : Bool) :
    (TouchHandler.moveCase G s p1 p2 now ir).pointersDown = s.pointersDown := by
  simp only [TouchHandler.moveCase]
  repeat' split
  all_goals simp

@[simp] theorem p1UpCase_pointersDown (s : TouchHandler) (p1 p2 : Vec2) (now : ℚ) :
    (s.p1UpCase p1 p2 now).1.pointersDown = s.pointersDown := by
  simp only [TouchHandler.p1UpCase]
  repeat' split
  all_goals rfl

@[simp] theorem p2UpCase_pointersDown (s : TouchHandler) (p1 p2 : Vec2) (now : ℚ) :
    (s.p2UpCase p1 p2 now).1.pointersDown = s.pointersDown := by
  simp only [TouchHandler.p2UpCase]
  repeat' split
  all_goals rfl

/-- One `onTouchEvent` changes `m_pointersDown` exactly by the clamped tally
of its action. -/
theorem onTouchEvent_pointersDown (G : RealFns) (s : TouchHandler) (inp : TouchInput) :
    ((s.onTouchEvent G inp).1).pointersDown = clampedTally s.pointersDown inp.action := by
  unfold TouchHandler.onTouchEvent clampedTally
  cases inp.action <;> simp

theorem runTouch_pointersDown (G : RealFns) (s : TouchHandler) (inputs : List TouchInput) :
    (s.runTouch G inputs).pointersDown =
      (inputs.map TouchInput.action).foldl clampedTally s.pointersDown := by
  induction inputs generalizing s with
  | nil => rfl
  | cons i rest ih =>
      rw [TouchHandler.runTouch, List.map, List.foldl, ih, onTouchEvent_pointersDown]

theorem foldl_clampedTally_range (acts : List TouchAction) (p : ℤ)
    (h0 : 0 ≤ p) (h2 : p ≤ 2) :
    0 ≤ acts.foldl clampedTally p ∧ acts.foldl clampedTally p ≤ 2 := by
  induction acts generalizing p with
  | nil => exact ⟨h0, h2⟩
  | cons a rest ih =>
      rw [List.foldl]
      apply ih <;> cases a <;> simp [clampedTally] <;> omega

theorem foldl_clamped_eq_raw (acts : List TouchAction) (p : ℤ)
    (h0 : 0 ≤ p) (h2 : p ≤ 2) (h : rawInRange p acts = true) :
    acts.foldl clampedTally p = acts.foldl rawTally p := by
  induction acts generalizing p with
  | nil => rfl
  | cons a rest ih =>
      rw [rawInRange] at h
      simp only [Bool.and_eq_true, decide_eq_true_eq] at h
      obtain ⟨⟨ha0, ha2⟩, hrest⟩ := h
      have hstep : clampedTally p a = rawTally p a := by
        cases a <;> simp only [clampedTally, rawTally] at * <;> omega
      rw [List.foldl, List.foldl, hstep]
      exact ih (rawTally p a) ha0 ha2 hrest

/-- **C1** (amended): after any sequence of `onTouch` actions `pointersDown`
lies in `{0, 1, 2}`; and it equals the number of Down actions minus the
number of Up actions since the last `Cancel` (counting from construction)
provided that running difference itself stays within `[0, 2]` after every
action.  (Unconditionally, it is the `min 2` / `max 0`-clamped fold of that
count, per `onTouchEvent_pointersDown`.) -/
theorem c1_pointersDown_clamped (G : RealFns) (v : View) (t0 : ℚ)
    (inputs : List TouchInput) :
    (0 ≤ ((TouchHandler.init v t0).runTouch G inputs).pointersDown ∧
      ((TouchHandler.init v t0).runTouch G inputs).pointersDown ≤ 2) ∧
    (rawInRange 0 (inputs.map TouchInput.action) = true →
      ((TouchHandler.init v t0).runTouch G inputs).pointersDown =
        (inputs.map TouchInput.action).foldl rawTally 0) := by
  have hinit : (TouchHandler.init v t0).pointersDown = 0 := rfl
  constructor
  · rw [runTouch_pointersDown, hinit]
    exact foldl_clampedTally_range _ 0 le_rfl (by norm_num)
  · intro h
    rw [runTouch_pointersDown, hinit]
    exact foldl_clamped_eq_raw _ 0 le_rfl (by norm_num) h

/-- **C1** witness: on `wfInputs` the running count stays in range and the
counter ends at `1 = 2 - 1`. -/
theorem c1_pointersDown_clamped_witness :
    (0 ≤ ((TouchHandler.init view0 0).runTouch fns0 wfInputs).pointersDown ∧
      ((TouchHandler.init view0 0).runTouch fns0 wfInputs).pointersDown ≤ 2) ∧
    ((TouchHandler.init view0 0).runTouch fns0 wfInputs).pointersDown =
      (wfInputs.map TouchInput.action).foldl rawTally 0 := by
  have h := c1_pointersDown_clamped fns0 view0 0 wfInputs
  exact ⟨h.1, h.2 (by decide)⟩

/-- **C1** counterexample: a single `P1Up` right after construction.  The
engine reports `pointersDown = 0`, but the downs-minus-ups count of the claim
is `−1`: the counter is clamped, it does not equal the count for sequences
whose running count leaves `[0, 2]`. -/
theorem c1_counterexample :
    ((TouchHandler.init view0 0).runTouch fns0
        [⟨.pointer1Up, ⟨500, 500⟩, ⟨-1, -1⟩, 1000, false⟩]).pointersDown = 0 ∧
    ([TouchAction.pointer1Up].foldl rawTally 0 = -1) ∧ (0 : ℤ) ≠ -1 := by
  refine ⟨?_, by decide, by decide⟩
  rw [runTouch_pointersDown]
  decide

theorem Vec2.lenSq_nonneg (v : Vec2) : 0 ≤ v.lenSq := by
  unfold Vec2.lenSq
  have hx := mul_self_nonneg v.x
  have hy := mul_self_nonneg v.y
  linarith

theorem Vec2.lenSq_smul (c : ℚ) (v : Vec2) :
    (Vec2.smul c v).lenSq = c * c * v.lenSq := by
  simp only [Vec2.smul, Vec2.lenSq]; ring

theorem Vec2.sub_smul_self (c : ℚ) (v : Vec2) :
    v - Vec2.smul c v = Vec2.smul (1 - c) v := by
  simp only [Vec2.sub_def, Vec2.smul, Vec2.mk.injEq]
  constructor <;> ring

theorem sFling_flinging : sFling.flinging := by
  unfold TouchHandler.flinging
  right
  have hv : sFling.velocityZoom = 1 := rfl
  rw [hv]
  norm_num [thresholdStopZoom]

/-- **C4** (amended): for `update(dt)` with `dt ≥ 0` the velocity magnitudes
are non-increasing; and one call with `dt ≥ 1/DAMPING_PAN = 0.25 s` taken
while flinging zeroes both.  (They do **not** in general reach zero after
finitely many calls — see the counterexample `dt = 0`.) -/
theorem c4_kinetic_decay (s : TouchHandler) (dt : ℚ) (h : 0 ≤ dt) :
    ((s.update dt).1.velocityPan.lenSq ≤ s.velocityPan.lenSq ∧
      |(s.update dt).1.velocityZoom| ≤ |s.velocityZoom|) ∧
    (1 / 4 ≤ dt → s.flinging →
      (s.update dt).1.velocityPan = Vec2.zero ∧ (s.update dt).1.velocityZoom = 0) := by
  simp only [TouchHandler.update]
  split
  · constructor
    · constructor
      · rw [Vec2.sub_smul_self, Vec2.lenSq_smul]
        have hc0 : 0 ≤ min (dt * dampingPan) 1 :=
          le_min (by unfold dampingPan; linarith) zero_le_one
        have hc1 : min (dt * dampingPan) 1 ≤ 1 := min_le_right _ _
        have h1 : (1 - min (dt * dampingPan) 1) * (1 - min (dt * dampingPan) 1) ≤ 1 := by
          nlinarith
        have h2 := Vec2.lenSq_nonneg s.velocityPan
        nlinarith [mul_le_mul_of_nonneg_right h1 h2]
      · have hc0 : 0 ≤ min (dt * dampingZoom) 1 :=
          le_min (by unfold dampingZoom; linarith) zero_le_one
        have hc1 : min (dt * dampingZoom) 1 ≤ 1 := min_le_right _ _
        have hrw : s.velocityZoom - min (dt * dampingZoom) 1 * s.velocityZoom =
            (1 - min (dt * dampingZoom) 1) * s.velocityZoom := by ring
        rw [hrw, abs_mul]
        have h3 : |1 - min (dt * dampingZoom) 1| ≤ 1 := by
          rw [abs_le]; constructor <;> linarith
        simpa using mul_le_mul_of_nonneg_right h3 (abs_nonneg s.velocityZoom)
    · intro h14 _
      have hp : min (dt * dampingPan) 1 = 1 := by
        rw [min_eq_right]; unfold dampingPan; linarith
      have hz : min (dt * dampingZoom) 1 = 1 := by
        rw [min_eq_right]; unfold dampingZoom; linarith
      rw [hp, hz]
      constructor
      · rw [Vec2.sub_smul_self]
        simp [Vec2.smul, Vec2.zero]
      · ring
  · rename_i hnf
    refine ⟨⟨le_rfl, le_rfl⟩, fun _ hf => absurd hf hnf⟩

/-- **C4** witness: from `sFling` (flinging, `velocityZoom = 1`) a single
`update(1/2)` zeroes both velocities, and `1/2 ≥ 0`. -/
theorem c4_kinetic_decay_witness :
    (0 : ℚ) ≤ 1 / 2 ∧
    (sFling.update (1 / 2)).1.velocityPan = Vec2.zero ∧
    (sFling.update (1 / 2)).1.velocityZoom = 0 :=
  ⟨by norm_num, (c4_kinetic_decay sFling (1 / 2) (by norm_num)).2 (by norm_num) sFling_flinging⟩

theorem update_zero_velocityZoom (s : TouchHandler) :
    ((s.update 0).1).velocityZoom = s.velocityZoom := by
  simp only [TouchHandler.update]
  split
  · simp only [zero_mul, mul_zero]
    rw [min_eq_left (by norm_num : (0 : ℚ) ≤ 1)]
    ring
  · rfl

theorem updateIter_zero_velocityZoom (s : TouchHandler) (n : ℕ) :
    (s.updateIter 0 n).velocityZoom = s.velocityZoom := by
  induction n generalizing s with
  | zero => rfl
  | succ n ih => rw [TouchHandler.updateIter, ih, update_zero_velocityZoom]

/-- **C4** counterexample: with `dt = 0 ≥ 0` on every call, `sFling` keeps
`velocityZoom = 1` forever — the velocities never reach zero after finitely
many calls, refuting the claim as stated. -/
theorem c4_counterexample :
    sFling.velocityZoom = 1 ∧ ¬ ∃ n : ℕ, (sFling.updateIter 0 n).velocityZoom = 0 := by
  refine ⟨rfl, ?_⟩
  rintro ⟨n, hn⟩
  rw [updateIter_zero_velocityZoom] at hn
  exact absurd hn (by norm_num [sFling])

/-- **C8** (amended): `update(dt)` with `dt < 0` does **not** clamp `dt`:
when not flinging the call changes nothing, but when flinging it scales
`velocityPan` by `1 − dt·DAMPING_PAN` and `velocityZoom` by
`1 − dt·DAMPING_ZOOM` (both `> 1`, so the magnitudes do not decrease) and
moves the view by the corresponding `translate`/`zoom`. -/
theorem c8_negative_dt (s : TouchHandler) (dt : ℚ) (h : dt < 0) :
    (¬ s.flinging → (s.update dt).1 = s ∧ (s.update dt).2 = false) ∧
    (s.flinging →
      (s.update dt).1.velocityPan = Vec2.smul (1 - dt * dampingPan) s.velocityPan ∧
      (s.update dt).1.velocityZoom = (1 - dt * dampingZoom) * s.velocityZoom ∧
      s.velocityPan.lenSq ≤ (s.update dt).1.velocityPan.lenSq ∧
      |s.velocityZoom| ≤ |(s.update dt).1.velocityZoom|) := by
  have hminp : min (dt * dampingPan) 1 = dt * dampingPan := by
    rw [min_eq_left]; unfold dampingPan; linarith
  have hminz : min (dt * dampingZoom) 1 = dt * dampingZoom := by
    rw [min_eq_left]; unfold dampingZoom; linarith
  simp only [TouchHandler.update]
  split
  · rename_i hf
    refine ⟨fun hnf => absurd hf hnf, fun _ => ?_⟩
    rw [hminp, hminz]
    refine ⟨Vec2.sub_smul_self _ _, by ring, ?_, ?_⟩
    · rw [Vec2.sub_smul_self, Vec2.lenSq_smul]
      have h1 : (1 : ℚ) ≤ (1 - dt * dampingPan) * (1 - dt * dampingPan) := by
        unfold dampingPan; nlinarith
      have h2 := mul_le_mul_of_nonneg_right h1 (Vec2.lenSq_nonneg s.velocityPan)
      linarith [h2]
    · have hrw : s.velocityZoom - dt * dampingZoom * s.velocityZoom =
          (1 - dt * dampingZoom) * s.velocityZoom := by ring
      rw [hrw, abs_mul]
      have h1 : (1 : ℚ) ≤ 1 - dt * dampingZoom := by unfold dampingZoom; nlinarith
      have h2 : |1 - dt * dampingZoom| = 1 - dt * dampingZoom := abs_of_pos (by linarith)
      rw [h2]
      have h3 := mul_le_mul_of_nonneg_right h1 (abs_nonneg s.velocityZoom)
      linarith [h3]
  · rename_i hnf
    exact ⟨fun _ => ⟨rfl, rfl⟩, fun hf => absurd hf hnf⟩

/-- **C8** witness: `sFling` is flinging and `dt = −1 < 0` scales
`velocityZoom` by `1 − (−1)·6 = 7`. -/
theorem c8_negative_dt_witness :
    (-1 : ℚ) < 0 ∧
    (sFling.update (-1)).1.velocityZoom = (1 - (-1) * dampingZoom) * sFling.velocityZoom :=
  ⟨by norm_num, (((c8_negative_dt sFling (-1) (by norm_num)).2 sFling_flinging).2.1)⟩

/-- **C8** counterexample: at `sFling` (flinging, `velocityZoom = 1`) the
call `update(−1)` yields `velocityZoom = 7 ≠ 1`: a negative `dt` is not
clamped to 0 and the call does change the velocities. -/
theorem c8_counterexample :
    (sFling.update (-1)).1.velocityZoom = 7 ∧ sFling.velocityZoom = 1 ∧ (7 : ℚ) ≠ 1 := by
  refine ⟨?_, rfl, by norm_num⟩
  simp only [TouchHandler.update, if_pos sFling_flinging]
  have hv : sFling.velocityZoom = 1 := rfl
  rw [hv]
  norm_num [min_def, dampingZoom]

/-- **C3** (amended): on `P1Up` out of `SinglePan` with `noDualPointerYet`
the engine keeps `velocityPan` unchanged and zeroes `velocityZoom`; out of
`SingleZoom` it keeps `velocityZoom` and zeroes `velocityPan`.  No comparison
against `THRESHOLD_START_PAN` or `THRESHOLD_START_ZOOM` is made (the two
constants are defined but unused), so sub-threshold velocities are *not*
zeroed. -/
theorem c3_p1Up_no_threshold_gating (G : RealFns) (s : TouchHandler) (inp : TouchInput)
    (hact : inp.action = .pointer1Up) (hnd : s.noDualPointerYet = true) :
    (s.gestureMode = .singlePointerPan →
      (s.onTouchEvent G inp).1.velocityPan = s.velocityPan ∧
      (s.onTouchEvent G inp).1.velocityZoom = 0) ∧
    (s.gestureMode = .singlePointerZoom →
      (s.onTouchEvent G inp).1.velocityZoom = s.velocityZoom ∧
      (s.onTouchEvent G inp).1.velocityPan = Vec2.zero) := by
  obtain ⟨a, p1, p2, now, ir⟩ := inp
  cases hact
  constructor
  · intro hm
    simp [TouchHandler.onTouchEvent, TouchHandler.p1UpCase, hm,
      TouchHandler.setVelocity, hnd]
  · intro hm
    simp [TouchHandler.onTouchEvent, TouchHandler.p1UpCase, hm,
      TouchHandler.setVelocity, hnd]

/-- **C3** witness: from `sPanArmed` (in `SinglePan`, `noDualPointerYet`),
`P1Up` keeps the pan velocity `(1, 0)` and zeroes the zoom velocity. -/
theorem c3_p1Up_no_threshold_gating_witness :
    (sPanArmed.onTouchEvent fns0 ⟨.pointer1Up, ⟨0, 0⟩, ⟨-1, -1⟩, 100, false⟩).1.velocityPan =
      sPanArmed.velocityPan ∧
    (sPanArmed.onTouchEvent fns0 ⟨.pointer1Up, ⟨0, 0⟩, ⟨-1, -1⟩, 100, false⟩).1.velocityZoom = 0 :=
  (c3_p1Up_no_threshold_gating fns0 sPanArmed _ rfl rfl).1 rfl

/-- **C3** counterexample: `sPanArmed`'s pan velocity is 1 px/s in screen
units, far below `THRESHOLD_START_PAN = 350 px/s`, so the claim requires it
to be zeroed on `P1Up`; the engine keeps it at `(1, 0) ≠ 0`. -/
theorem c3_counterexample :
    (Vec2.smul (sPanArmed.view.pixelsPerMeter / sPanArmed.view.pixelScale)
        sPanArmed.velocityPan).lenSq < thresholdStartPan * thresholdStartPan ∧
    (sPanArmed.onTouchEvent fns0 ⟨.pointer1Up, ⟨0, 0⟩, ⟨-1, -1⟩, 100, false⟩).1.velocityPan =
      ⟨1, 0⟩ ∧
    (⟨1, 0⟩ : Vec2) ≠ Vec2.zero := by
  refine ⟨?_, ?_, by simp [Vec2.zero]⟩
  · norm_num [sPanArmed, TouchHandler.init, view0, Vec2.smul, Vec2.lenSq, thresholdStartPan]
  · simp [TouchHandler.onTouchEvent, TouchHandler.p1UpCase, TouchHandler.setVelocity,
      show sPanArmed.gestureMode = .singlePointerPan from rfl,
      show sPanArmed.noDualPointerYet = true from rfl, sPanArmed, TouchHandler.init]

/-- **C6** (amended): a `Cancel` action zeroes both velocities, sets
`mode = SingleClickGuess` and `pointersDown = 0`, but leaves
`interactionConsumed` *unchanged* — only the separate `cancel()` method also
clears the flag. -/
theorem c6_cancel_effects (G : RealFns) (s : TouchHandler) (inp : TouchInput)
    (hact : inp.action = .cancel) :
    ((s.onTouchEvent G inp).1.velocityPan = Vec2.zero ∧
      (s.onTouchEvent G inp).1.velocityZoom = 0 ∧
      (s.onTouchEvent G inp).1.gestureMode = .singlePointerClickGuess ∧
      (s.onTouchEvent G inp).1.pointersDown = 0 ∧
      (s.onTouchEvent G inp).1.interactionConsumed = s.interactionConsumed) ∧
    s.cancelMethod.interactionConsumed = false := by
  obtain ⟨a, p1, p2, now, ir⟩ := inp
  cases hact
  exact ⟨⟨rfl, rfl, rfl, rfl, rfl⟩, rfl⟩

/-- **C6** witness: `Cancel` on `sPanArmed` zeroes the velocities and resets
mode and pointer count. -/
theorem c6_cancel_effects_witness :
    (sPanArmed.onTouchEvent fns0 ⟨.cancel, ⟨-1, -1⟩, ⟨-1, -1⟩, 100, false⟩).1.velocityPan =
      Vec2.zero ∧
    (sPanArmed.onTouchEvent fns0 ⟨.cancel, ⟨-1, -1⟩, ⟨-1, -1⟩, 100, false⟩).1.velocityZoom = 0 ∧
    (sPanArmed.onTouchEvent fns0 ⟨.cancel, ⟨-1, -1⟩, ⟨-1, -1⟩, 100, false⟩).1.gestureMode =
      .singlePointerClickGuess ∧
    (sPanArmed.onTouchEvent fns0 ⟨.cancel, ⟨-1, -1⟩, ⟨-1, -1⟩, 100, false⟩).1.pointersDown = 0 :=
  ⟨(c6_cancel_effects fns0 sPanArmed _ rfl).1.1,
   (c6_cancel_effects fns0 sPanArmed _ rfl).1.2.1,
   (c6_cancel_effects fns0 sPanArmed _ rfl).1.2.2.1,
   (c6_cancel_effects fns0 sPanArmed _ rfl).1.2.2.2.1⟩

theorem p1DownCase_noDual (s : TouchHandler) (p : Vec2) (n : ℚ) (ir : Bool) :
    (s.p1DownCase p n ir).noDualPointerYet = true := by
  simp only [TouchHandler.p1DownCase]
  repeat' split
  all_goals rfl

theorem p1DownCase_velocityPan (s : TouchHandler) (p : Vec2) (n : ℚ) (ir : Bool) :
    (s.p1DownCase p n ir).velocityPan = Vec2.zero := by
  simp only [TouchHandler.p1DownCase]
  repeat' split
  all_goals rfl

theorem p1DownCase_velocityZoom (s : TouchHandler) (p : Vec2) (n : ℚ) (ir : Bool) :
    (s.p1DownCase p n ir).velocityZoom = 0 := by
  simp only [TouchHandler.p1DownCase]
  repeat' split
  all_goals rfl

/-- **C9** (amended): a malformed action — in particular a duplicate
`P1Down` — is *not* treated as an implicit `Cancel` followed by the action:
every `P1Down` is processed uniformly (it restarts the per-gesture state and
zeroes the velocities) and *increments* `pointersDown`, clamped at 2.  After
a duplicate `P1Down` the counter is `min 2 (previous + 1)` — e.g. 2, not 1. -/
theorem c9_p1Down_ordinary (G : RealFns) (s : TouchHandler) (inp : TouchInput)
    (hact : inp.action = .pointer1Down) :
    (s.onTouchEvent G inp).1.pointersDown = min 2 (s.pointersDown + 1) ∧
    (s.onTouchEvent G inp).1.noDualPointerYet = true ∧
    (s.onTouchEvent G inp).1.velocityPan = Vec2.zero ∧
    (s.onTouchEvent G inp).1.velocityZoom = 0 := by
  obtain ⟨a, p1, p2, now, ir⟩ := inp
  cases hact
  refine ⟨?_, ?_, ?_, ?_⟩
  · simp [TouchHandler.onTouchEvent]
  · simp only [TouchHandler.onTouchEvent]
    exact p1DownCase_noDual s p1 now ir
  · simp only [TouchHandler.onTouchEvent]
    exact p1DownCase_velocityPan s p1 now ir
  · simp only [TouchHandler.onTouchEvent]
    exact p1DownCase_velocityZoom s p1 now ir

/-- **C9** witness: applying the amended description to the second,
duplicate `P1Down` of `dupInputs`. -/
theorem c9_p1Down_ordinary_witness :
    (((TouchHandler.init view0 0).runTouch fns0
        [⟨.pointer1Down, ⟨0, 0⟩, ⟨-1, -1⟩, 1000, false⟩]).onTouchEvent fns0
          ⟨.pointer1Down, ⟨0, 0⟩, ⟨-1, -1⟩, 2000, false⟩).1.pointersDown =
      min 2 (((TouchHandler.init view0 0).runTouch fns0
        [⟨.pointer1Down, ⟨0, 0⟩, ⟨-1, -1⟩, 1000, false⟩]).pointersDown + 1) ∧
    (((TouchHandler.init view0 0).runTouch fns0
        [⟨.pointer1Down, ⟨0, 0⟩, ⟨-1, -1⟩, 1000, false⟩]).onTouchEvent fns0
          ⟨.pointer1Down, ⟨0, 0⟩, ⟨-1, -1⟩, 2000, false⟩).1.noDualPointerYet = true :=
  ⟨(c9_p1Down_ordinary fns0 _ _ rfl).1, (c9_p1Down_ordinary fns0 _ _ rfl).2.1⟩

/-- **C9** counterexample: after the duplicate `P1Down` of `dupInputs` the
engine reports `pointersDown = 2`, while treating it as implicit `Cancel`
followed by `P1Down` (`dupCancelInputs`) yields 1.  The claim's own example
(`pointersDown = 1` after a duplicate `P1Down`) fails. -/
theorem c9_counterexample :
    ((TouchHandler.init view0 0).runTouch fns0 dupInputs).pointersDown = 2 ∧
    ((TouchHandler.init view0 0).runTouch fns0 dupCancelInputs).pointersDown = 1 ∧
    (2 : ℤ) ≠ 1 := by
  refine ⟨?_, ?_, by decide⟩ <;> (rw [runTouch_pointersDown]; decide)

/-- **C10**: a `P1Up` in `SingleClickGuess` whose movement stays below the
tap threshold and whose duration lies in `[DOUBLE_TAP_TIMEOUT (300 ms),
LONG_PRESS_TIMEOUT (500 ms))` invokes no click handler at all (no single,
long, double or dual click, hence no default behavior) and leaves the mode
at `SingleClickGuess`.  The movement bound is stated in exact square form of
`moveDist < tapThreshold`. -/
theorem c10_tap_dead_window (G : RealFns) (s : TouchHandler) (inp : TouchInput)
    (hact : inp.action = .pointer1Up)
    (hmode : s.gestureMode = .singlePointerClickGuess)
    (hthresh : 0 < tapMovementThresholdInches * s.dpi)
    (hdist : (inp.pos1 - s.prevScreenPos1).lenSq <
      (tapMovementThresholdInches * s.dpi) * (tapMovementThresholdInches * s.dpi))
    (hlo : doubleTapTimeout ≤ inp.now - s.pointer1DownTime)
    (hhi : inp.now - s.pointer1DownTime < longPressTimeout) :
    (s.onTouchEvent G inp).2 = [] ∧
    (s.onTouchEvent G inp).1.gestureMode = .singlePointerClickGuess := by
  obtain ⟨a, p1, p2, now, ir⟩ := inp
  cases hact
  simp only [TouchHandler.onTouchEvent, TouchHandler.p1UpCase, hmode]
  constructor
  · rw [if_pos ⟨hthresh, hdist⟩, if_neg (not_le.mpr hhi), if_neg (not_lt.mpr hlo)]
  · simp

/-- **C10** witness: fresh engine, `P1Up` at `(1, 1)` after 400 ms: movement
`√2 px` is below the 16 px threshold and `300 ≤ 400 < 500`, so no click is
emitted and the mode stays `SingleClickGuess`. -/
theorem c10_tap_dead_window_witness :
    ((TouchHandler.init view0 0).onTouchEvent fns0
        ⟨.pointer1Up, ⟨1, 1⟩, ⟨-1, -1⟩, 400, false⟩).2 = [] ∧
    ((TouchHandler.init view0 0).onTouchEvent fns0
        ⟨.pointer1Up, ⟨1, 1⟩, ⟨-1, -1⟩, 400, false⟩).1.gestureMode =
      .singlePointerClickGuess :=
  c10_tap_dead_window fns0 _ _ rfl rfl
    (by norm_num [TouchHandler.init, tapMovementThresholdInches, defaultDpi])
    (by norm_num [TouchHandler.init, tapMovementThresholdInches, defaultDpi,
      Vec2.lenSq, Vec2.zero])
    (by norm_num [TouchHandler.init, doubleTapTimeout])
    (by norm_num [TouchHandler.init, longPressTimeout])

/-- **C2** (amended): a Move handled in `SingleZoom` mode — *provided the
double-tap-drag gesture is enabled* — applies the zoom delta
`(pos.y − prev1.y) × SINGLE_POINTER_ZOOM_SENSITIVITY (0.005)`, translates by
`start − end` where both projections are taken at `doubleTapStartPos` (with
the pre-zoom elevation), thereby preserving the absolute ground-plane point
under `doubleTapStartPos`, and finally sets `prev1 = pos`.  When the gesture
is disabled, `singlePointerZoom` returns without touching the view (the
counterexample), which is the one proviso the original claim lacks. -/
theorem c2_singlePointerZoom_anchor (G : RealFns) (s : TouchHandler) (inp : TouchInput)
    (hact : inp.action = .move)
    (hmode : s.gestureMode = .singlePointerZoom)
    (hcons : s.interactionConsumed = false)
    (hdrag : s.doubleTapDragEnabled = true) :
    (s.onTouchEvent G inp).1.view.zoomLevel =
      s.view.zoomLevel + (inp.pos1.y - s.prevScreenPos1.y) * singlePointerZoomSensitivity ∧
    (s.onTouchEvent G inp).1.view.pos =
      s.view.pos +
        (s.view.screenToGroundPlane s.doubleTapStartPos
            (s.view.screenPositionElev s.doubleTapStartPos) -
          (s.view.zoomBy
              ((inp.pos1.y - s.prevScreenPos1.y) *
                singlePointerZoomSensitivity)).screenToGroundPlane s.doubleTapStartPos
            (s.view.screenPositionElev s.doubleTapStartPos)) ∧
    (s.onTouchEvent G inp).1.view.groundPointAt s.doubleTapStartPos
        (s.view.screenPositionElev s.doubleTapStartPos) =
      s.view.groundPointAt s.doubleTapStartPos
        (s.view.screenPositionElev s.doubleTapStartPos) ∧
    (s.onTouchEvent G inp).1.prevScreenPos1 = inp.pos1 := by
  obtain ⟨a, p1, p2, now, ir⟩ := inp
  cases hact
  have hstep : (s.onTouchEvent G ⟨.move, p1, p2, now, ir⟩).1 = s.singlePointerZoom p1 := by
    simp [TouchHandler.onTouchEvent, TouchHandler.moveCase, hcons, hmode]
    rw [← singlePointerZoom_pointersDown s p1]
  have hz : s.singlePointerZoom p1 =
      { s with
          view := ((s.view.zoomBy
              ((p1.y - s.prevScreenPos1.y) * singlePointerZoomSensitivity)).translate
            (s.view.screenToGroundPlane s.doubleTapStartPos
                (s.view.screenPositionElev s.doubleTapStartPos) -
              (s.view.zoomBy
                  ((p1.y - s.prevScreenPos1.y) *
                    singlePointerZoomSensitivity)).screenToGroundPlane s.doubleTapStartPos
                (s.view.screenPositionElev s.doubleTapStartPos))),
          prevScreenPos1 := p1 } := by
    simp [TouchHandler.singlePointerZoom, hdrag]
  rw [hstep, hz]
  refine ⟨rfl, rfl, ?_, rfl⟩
  simp only [View.groundPointAt, View.translate, View.zoomBy, View.screenToGroundPlane,
    View.screenPositionElev, Vec2.add_def, Vec2.sub_def, Vec2.mk.injEq]
  constructor <;> ring

/-- **C2** witness: dragging down 200 px from `sZoomOn` zooms by
`200 × 0.005 = 1` (zoom 10 → 11) while the ground point under the anchor
`(10, 20)` is unchanged. -/
theorem c2_singlePointerZoom_anchor_witness :
    (sZoomOn.onTouchEvent fns0 ⟨.move, ⟨0, 200⟩, ⟨-1, -1⟩, 50, false⟩).1.view.zoomLevel = 11 ∧
    (sZoomOn.onTouchEvent fns0 ⟨.move, ⟨0, 200⟩, ⟨-1, -1⟩, 50, false⟩).1.view.groundPointAt
        sZoomOn.doubleTapStartPos
        (sZoomOn.view.screenPositionElev sZoomOn.doubleTapStartPos) =
      sZoomOn.view.groundPointAt sZoomOn.doubleTapStartPos
        (sZoomOn.view.screenPositionElev sZoomOn.doubleTapStartPos) := by
  have h := c2_singlePointerZoom_anchor fns0 sZoomOn
    ⟨.move, ⟨0, 200⟩, ⟨-1, -1⟩, 50, false⟩ rfl rfl rfl rfl
  refine ⟨?_, h.2.2.1⟩
  rw [h.1]
  norm_num [sZoomOn, TouchHandler.init, view0, singlePointerZoomSensitivity, Vec2.zero]

/-- **C2** counterexample: with `doubleTapDragEnabled = false` a Move handled
in `SingleZoom` leaves the zoom at 10, while the claim demands
`10 + 200 × 0.005 = 11`: the claim omits the `m_doubleTapDragEnabled` guard
at the top of `singlePointerZoom`. -/
theorem c2_counterexample :
    sZoomOff.gestureMode = .singlePointerZoom ∧
    (sZoomOff.onTouchEvent fns0 ⟨.move, ⟨0, 200⟩, ⟨-1, -1⟩, 50, false⟩).1.view.zoomLevel = 10 ∧
    sZoomOff.view.zoomLevel +
        (((0 : ℚ), (200 : ℚ)).2 - sZoomOff.prevScreenPos1.y) * singlePointerZoomSensitivity =
      11 ∧
    (10 : ℚ) ≠ 11 := by
  refine ⟨rfl, ?_, ?_, by norm_num⟩
  · simp [TouchHandler.onTouchEvent, TouchHandler.moveCase, TouchHandler.singlePointerZoom,
      sZoomOff, TouchHandler.init, view0]
  · norm_num [sZoomOff, TouchHandler.init, view0, singlePointerZoomSensitivity, Vec2.zero]

@[simp] theorem singlePointerPan_consumed (G : RealFns) (s : TouchHandler) (p : Vec2) :
    (s.singlePointerPan G p).interactionConsumed = s.interactionConsumed := rfl

@[simp] theorem singlePointerZoom_consumed (s : TouchHandler) (p : Vec2) :
    (s.singlePointerZoom p).interactionConsumed = s.interactionConsumed := by
  simp only [TouchHandler.singlePointerZoom]
  split <;> rfl

@[simp] theorem dualPointerGuess_consumed (s : TouchHandler) (p1 p2 : Vec2) :
    (s.dualPointerGuess p1 p2).interactionConsumed = s.interactionConsumed := by
  simp only [TouchHandler.dualPointerGuess]
  repeat' split
  all_goals rfl

@[simp] theorem dualPointerPan_consumed (G : RealFns) (s : TouchHandler) (p1 p2 : Vec2)
    (rotate scale : Bool) :
    (s.dualPointerPan G p1 p2 rotate scale).interactionConsumed = s.interactionConsumed := by
  simp only [TouchHandler.dualPointerPan]
  repeat' split
  all_goals rfl

@[simp] theorem dualPointerTilt_consumed (G : RealFns) (s : TouchHandler) (p1 : Vec2) :
    (s.dualPointerTilt G p1).interactionConsumed = s.interactionConsumed := by
  simp only [TouchHandler.dualPointerTilt]
  split <;> rfl

@[simp] theorem p2DownCase_consumed (s : TouchHandler) (p1 p2 : Vec2) :
    (s.p2DownCase p1 p2).interactionConsumed = s.interactionConsumed := by
  simp only [TouchHandler.p2DownCase]
  split <;> rfl

theorem consumedInv_step (G : RealFns) (s : TouchHandler) (inp : TouchInput)
    (h : ConsumedInv s) : ConsumedInv ((s.onTouchEvent G inp).1) := by
  obtain ⟨a, p1, p2, now, ir⟩ := inp
  unfold ConsumedInv at h ⊢
  cases a
  all_goals
    simp only [TouchHandler.onTouchEvent, TouchHandler.p1DownCase, TouchHandler.p2DownCase,
      TouchHandler.moveCase, TouchHandler.p1UpCase, TouchHandler.p2UpCase,
      TouchHandler.setVelocity, TouchHandler.startSinglePointerZoom,
      TouchHandler.startDualPointer]
  all_goals repeat' split
  all_goals intro hc
  all_goals simp_all

theorem runTouch_consumedInv (G : RealFns) (s : TouchHandler) (inputs : List TouchInput)
    (h : ConsumedInv s) : ConsumedInv (s.runTouch G inputs) := by
  induction inputs generalizing s with
  | nil => exact h
  | cons i rest ih => exact ih _ (consumedInv_step G s i h)

theorem reachable_consumedInv (G : RealFns) (s : TouchHandler) (h : Reachable G s) :
    ConsumedInv s := by
  obtain ⟨v, t0, inputs, rfl⟩ := h
  apply runTouch_consumedInv
  intro hc
  simp [TouchHandler.init] at hc

/-- **C5**: once the interaction listener consumed the gesture
(`interactionConsumed = true`, in any reachable state), every Move is a
complete no-op — the state (hence the view: no translate, zoom, yaw or
pitch) is unchanged and no click handler runs — and the flag stays set under
every action other than `P1Down`; only the next `P1Down` clears it. -/
theorem c5_consumed_silences (G : RealFns) (s : TouchHandler)
    (hr : Reachable G s) (hc : s.interactionConsumed = true) :
    (∀ inp : TouchInput, inp.action = .move →
      (s.onTouchEvent G inp).1 = s ∧ (s.onTouchEvent G inp).2 = []) ∧
    (∀ inp : TouchInput, inp.action ≠ .pointer1Down →
      (s.onTouchEvent G inp).1.interactionConsumed = true) := by
  have hmode := reachable_consumedInv G s hr hc
  constructor
  · rintro ⟨a, p1, p2, now, ir⟩ hact
    cases hact
    refine ⟨?_, rfl⟩
    simp only [TouchHandler.onTouchEvent, TouchHandler.moveCase, hc, if_true]
    rw [← hc]
  · rintro ⟨a, p1, p2, now, ir⟩ hact
    cases a
    · exact absurd rfl hact
    · simp only [TouchHandler.onTouchEvent]
      rw [p2DownCase_consumed]
      exact hc
    · simp only [TouchHandler.onTouchEvent, TouchHandler.moveCase, hc, if_true]
    · exact hc
    · rcases hmode with h1 | h1 <;>
        simp only [TouchHandler.onTouchEvent, TouchHandler.p1UpCase, h1] <;>
        exact hc
    · rcases hmode with h1 | h1 <;>
        simp only [TouchHandler.onTouchEvent, TouchHandler.p2UpCase, h1] <;>
        exact hc

theorem sCons_consumed : sCons.interactionConsumed = true := by
  norm_num [sCons, consInputs, TouchHandler.runTouch, TouchHandler.onTouchEvent,
    TouchHandler.p1DownCase, TouchHandler.moveCase, TouchHandler.setVelocity,
    TouchHandler.init, doubleTapTimeout, tapMovementThresholdInches, defaultDpi,
    Vec2.lenSq, Vec2.zero]

/-- **C5** witness: `sCons` is reachable and consumed; a further Move leaves
it untouched and emits nothing, and a `Cancel` keeps the flag set. -/
theorem c5_consumed_silences_witness :
    sCons.interactionConsumed = true ∧
    (sCons.onTouchEvent fns0 ⟨.move, ⟨300, 300⟩, ⟨-1, -1⟩, 1020, false⟩).1 = sCons ∧
    (sCons.onTouchEvent fns0 ⟨.move, ⟨300, 300⟩, ⟨-1, -1⟩, 1020, false⟩).2 = [] ∧
    (sCons.onTouchEvent fns0 ⟨.cancel, ⟨-1, -1⟩, ⟨-1, -1⟩, 1030, false⟩).1.interactionConsumed =
      true := by
  have hr : Reachable fns0 sCons := ⟨view0, 0, consInputs, rfl⟩
  have h := c5_consumed_silences fns0 sCons hr sCons_consumed
  exact ⟨sCons_consumed, (h.1 _ rfl).1, (h.1 _ rfl).2, h.2 _ (by decide)⟩

/-- **C6** counterexample: `sCons` is a reachable state with
`interactionConsumed = true`; after processing a `Cancel` action the flag is
*still* `true`, not `false` as the claim states (the `CANCEL` case of
`onTouchEvent` resets velocities, mode and pointer count but not the flag;
only the `cancel()` method does). -/
theorem c6_counterexample :
    sCons.interactionConsumed = true ∧
    (sCons.onTouchEvent fns0 ⟨.cancel, ⟨-1, -1⟩, ⟨-1, -1⟩, 1030, false⟩).1.interactionConsumed =
      true ∧
    true ≠ false :=
  ⟨sCons_consumed, sCons_consumed, by decide⟩

/-- **C7** (amended): during dual-pointer classification (Move in `DualGuess`
with both families enabled and y-separation at most 1.0 in), the rotate/scale
classification fires when after accumulation some swipe exceeds
`GUESS_MIN_SWIPE_LENGTH_OPPOSITE (0.075 in)` **and that same swipe had
already accumulated a nonzero length before this Move**
(`prevSwipeLength > 0` in the source — the condition the original claim
omits) and the y-product is ≤ 0; then under `Free` the mode becomes
`DualFree`, under `Sticky`/`StickyFinal` it becomes `DualRotate`.
Length comparisons are in exact square form. -/
theorem c7_dualGuess_opposite (G : RealFns) (s : TouchHandler) (inp : TouchInput)
    (hact : inp.action = .move)
    (hmode : s.gestureMode = .dualPointerGuess)
    (hcons : s.interactionConsumed = false)
    (htilt : s.tiltEnabled = true)
    (hrz : (s.rotateEnabled || s.zoomEnabled) = true)
    (hdy : |inp.pos1.y - inp.pos2.y| / s.dpi ≤ guessMaxDeltaYInches)
    (hcond : ((s.swipe1 + Vec2.smul (1 / s.dpi) (inp.pos1 - s.prevScreenPos1)).lenSq >
          guessMinSwipeLengthOppositeInches * guessMinSwipeLengthOppositeInches ∧
          s.swipe1.lenSq > 0) ∨
        ((s.swipe2 + Vec2.smul (1 / s.dpi) (inp.pos2 - s.prevScreenPos2)).lenSq >
          guessMinSwipeLengthOppositeInches * guessMinSwipeLengthOppositeInches ∧
          s.swipe2.lenSq > 0))
    (hprod : (s.swipe1 + Vec2.smul (1 / s.dpi) (inp.pos1 - s.prevScreenPos1)).y *
        (s.swipe2 + Vec2.smul (1 / s.dpi) (inp.pos2 - s.prevScreenPos2)).y ≤ 0) :
    (s.panningMode = .free → (s.onTouchEvent G inp).1.gestureMode = .dualPointerFree) ∧
    ((s.panningMode = .sticky ∨ s.panningMode = .stickyFinal) →
      (s.onTouchEvent G inp).1.gestureMode = .dualPointerRotate) := by
  obtain ⟨a, p1, p2, now, ir⟩ := inp
  cases hact
  have hstep : (s.onTouchEvent G ⟨.move, p1, p2, now, ir⟩).1 = s.dualPointerGuess p1 p2 := by
    simp [TouchHandler.onTouchEvent, TouchHandler.moveCase, hcons, hmode]
    rw [← hcons, ← dualPointerGuess_consumed s p1 p2, ← dualPointerGuess_pointersDown s p1 p2]
  rw [hstep]
  simp only [TouchHandler.dualPointerGuess, htilt, hrz, eq_self_iff_true, if_true]
  rw [if_neg (by decide : ¬ ((1 : ℤ) + 1 = 1)), if_neg (by decide : ¬ ((1 : ℤ) + 1 = 0)),
    if_neg (not_lt.mpr hdy), if_pos ⟨hcond, hprod⟩]
  simp only [hrz, eq_self_iff_true, if_true]
  constructor
  · intro hpm
    rw [if_neg (show ¬ (s.panningMode = .sticky ∨ s.panningMode = .stickyFinal) from by
      rw [hpm]; decide)]
  · intro hpm
    rw [if_pos hpm]

/-- **C7** witness: from `sGuessW` (previous swipe nonzero) the Move takes
swipe 1 to `(0, 0.135)` (length > 0.075 in), the y-product is `0 ≤ 0`, and
under panning mode `Free` the mode becomes `DualFree`. -/
theorem c7_dualGuess_opposite_witness :
    sGuessW.panningMode = .free ∧
    (sGuessW.onTouchEvent fns0 mvGuess).1.gestureMode = .dualPointerFree := by
  refine ⟨rfl, ?_⟩
  refine (c7_dualGuess_opposite fns0 sGuessW mvGuess rfl rfl rfl rfl rfl ?_ ?_ ?_).1 rfl
  · norm_num [sGuessW, mvGuess, TouchHandler.init, guessMaxDeltaYInches, defaultDpi,
      Vec2.zero]
  · left
    constructor <;>
      norm_num [sGuessW, mvGuess, TouchHandler.init, Vec2.zero, Vec2.add_def, Vec2.sub_def,
        Vec2.smul, Vec2.lenSq, guessMinSwipeLengthOppositeInches, defaultDpi]
  · norm_num [sGuessW, mvGuess, TouchHandler.init, Vec2.zero, Vec2.add_def, Vec2.sub_def,
      Vec2.smul, Vec2.lenSq, defaultDpi]

/-- **C7** counterexample: from `sGuess` — the *first* Move after
`startDualPointer`, both previous swipes of length 0 — the accumulated
swipe 1 exceeds 0.075 in and the y-product is 0 ≤ 0, i.e. the claim's
premises hold, yet the engine stays in `DualGuess` (it does not classify as
rotate/scale, because the source also requires `prevSwipe1Length > 0`). -/
theorem c7_counterexample :
    sGuess.panningMode = .free ∧
    |mvGuess.pos1.y - mvGuess.pos2.y| / sGuess.dpi ≤ guessMaxDeltaYInches ∧
    (sGuess.swipe1 + Vec2.smul (1 / sGuess.dpi) (mvGuess.pos1 - sGuess.prevScreenPos1)).lenSq >
      guessMinSwipeLengthOppositeInches * guessMinSwipeLengthOppositeInches ∧
    (sGuess.swipe1 + Vec2.smul (1 / sGuess.dpi) (mvGuess.pos1 - sGuess.prevScreenPos1)).y *
      (sGuess.swipe2 + Vec2.smul (1 / sGuess.dpi) (mvGuess.pos2 - sGuess.prevScreenPos2)).y ≤ 0 ∧
    (sGuess.onTouchEvent fns0 mvGuess).1.gestureMode = .dualPointerGuess ∧
    GestureMode.dualPointerGuess ≠ .dualPointerFree := by
  refine ⟨rfl, ?_, ?_, ?_, ?_, by decide⟩
  · norm_num [sGuess, mvGuess, TouchHandler.init, guessMaxDeltaYInches, defaultDpi]
  · norm_num [sGuess, mvGuess, TouchHandler.init, Vec2.zero, Vec2.add_def, Vec2.sub_def,
      Vec2.smul, Vec2.lenSq, guessMinSwipeLengthOppositeInches, defaultDpi]
  · norm_num [sGuess, mvGuess, TouchHandler.init, Vec2.zero, Vec2.add_def, Vec2.sub_def,
      Vec2.smul, Vec2.lenSq, defaultDpi]
  · norm_num [TouchHandler.onTouchEvent, TouchHandler.moveCase, TouchHandler.dualPointerGuess,
      sGuess, mvGuess, TouchHandler.init, view0, Vec2.smul, Vec2.add_def, Vec2.sub_def,
      Vec2.lenSq, Vec2.zero, guessMaxDeltaYInches, guessMinSwipeLengthOppositeInches,
      guessMinSwipeLengthSameInches, defaultDpi]

end Tangram

